import Mathlib

/-!
Verification of the deep-research / risk-assessment orchestration layer
(`deep_research_plugin.py`, `risk_agent.py`).

The completion endpoint is an external collaborator; every completion call is
modelled by a value of type `Resp`: `Except.error e` models the call raising an
exception with message `e`, `Except.ok none` models a returned message whose
`content` field is `null` (Python `None`), and `Except.ok (some s)` models a
returned text `s`.  A whole orchestration run consumes responses from an
oracle `Nat → Resp` indexed by call order (call 0 is the outline request, the
research calls follow in aspect-major, iteration-minor order, exactly as the
sequential source issues them).

Python strings are modelled by Lean `String` / `List Char`; `str.strip`,
`str.lstrip`, `str.split` are given explicit executable models below
(whitespace is the ASCII whitespace set; `isdigit` on the first character is
modelled by `Char.isDigit`, the ASCII case — no claim exercises non-ASCII
digits).  `datetime.now` is impure, so the current date is passed to the
report renderer as an explicit parameter.  The Python `dict` that accumulates
research results is modelled by an association list with Python-dict
semantics: assignment to an existing key keeps its original insertion
position and replaces the value.
-/

/-- ASCII whitespace stripped by Python `str.strip()`. -/
def pyIsSpace (c : Char) : Bool :=
  c == ' ' || c == '\t' || c == '\n' || c == '\r' || c == '\x0b' || c == '\x0c'

/-- Python `str.strip()` on a character list. -/
def pyStripList (l : List Char) : List Char :=
  ((l.dropWhile pyIsSpace).reverse.dropWhile pyIsSpace).reverse

/-- Python `str.strip()`. -/
def pyStrip (s : String) : String :=
  String.mk (pyStripList s.data)

/-- Everything after the first `'.'` of the list; models
`line.split('.', 1)[-1]` when a `'.'` is present. -/
def afterFirstDot : List Char → List Char
  | [] => []
  | c :: cs => if c == '.' then cs else afterFirstDot cs

/-- Number of positions of `l` at which `pat` occurs as a contiguous block. -/
def countSub (pat : List Char) : List Char → Nat
  | [] => 0
  | c :: tl => (if pat.isPrefixOf (c :: tl) then 1 else 0) + countSub pat tl

/-- `true` iff `pat` occurs in `hay` as a contiguous substring. -/
def containsStr (hay pat : String) : Bool :=
  0 < countSub pat.data hay.data

/-- One completion-call outcome: raised exception, `None` content, or text. -/
abbrev Resp := Except String (Option String)

/-- The sequence of completion outcomes a run consumes, by call index. -/
abbrev Oracle := Nat → Resp

/-- Models the message of the Python `AttributeError` raised by calling
`.strip()` on `None` (inner quotes of the CPython message elided). -/
def noneStripMsg : String :=
  "NoneType object has no attribute strip"

/-- The fixed fallback list of `_generate_research_outline`
(`deep_research_plugin.py` lines 140-151 and 159-170, identical lists). -/
def genericAspects (query : String) : List String :=
  [ "Current state and overview of " ++ query
  , "Recent developments and trends in " ++ query
  , "Key challenges and opportunities in " ++ query
  , "Future implications and predictions for " ++ query
  , "Expert opinions and analysis on " ++ query
  , "Technical aspects and specifications of " ++ query
  , "Economic and market impact of " ++ query
  , "Social and cultural effects of " ++ query
  , "Regulatory and legal considerations for " ++ query
  , "Comparative analysis and alternatives to " ++ query ]

/-- The per-line step of the outline parser (`deep_research_plugin.py`
lines 130-135): strip the line; accept it when it is non-empty and begins
with a digit, `-` or `•`; then either take the text after the first `'.'`
(when the line contains one) or strip a leading `-`/`•` run; keep the
stripped remainder when non-empty. -/
def parseLineAspect (line : String) : Option String :=
  let l := pyStripList line.data
  match l with
  | [] => none
  | c :: cs =>
    if c.isDigit || c == '-' || c == '•' then
      let aspect :=
        if (c :: cs).contains '.' then pyStripList (afterFirstDot (c :: cs))
        else pyStripList ((c :: cs).dropWhile (fun ch => ch == '-' || ch == '•'))
      if aspect = [] then none else some (String.mk aspect)
    else none

/-- Python `str.split('\n')` on a character list: the pieces between the
newline characters, empty pieces kept (`"".split('\n') == [""]`). -/
def splitLinesList : List Char → List (List Char)
  | [] => [[]]
  | c :: cs =>
    match splitLinesList cs with
    | [] => [[c]]
    | p :: ps => if c == '\n' then [] :: p :: ps else (c :: p) :: ps

/-- The outline parser (`deep_research_plugin.py` lines 127-135):
`outline_content.strip().split('\n')`, then the per-line step, collecting
accepted items in order. -/
def parseAspects (content : String) : List String :=
  ((splitLinesList (pyStripList content.data)).map String.mk).filterMap parseLineAspect

/-- `_generate_research_outline` (`deep_research_plugin.py` lines 91-171),
as a function of the outcome of its single completion call.  On text, parse;
if fewer than `breadth` items were parsed, extend with
`generic_aspects[len(aspects):breadth]`; return `aspects[:breadth]`.
A `None` content makes `.strip()` raise inside the `try`, so it lands in the
same `except` branch as a failing call: both return the generic fallback
truncated to `breadth`. -/
def generateResearchOutline (query : String) (breadth : Nat) (resp : Resp) : List String :=
  match resp with
  | Except.ok (some content) =>
      let aspects := parseAspects content
      let padded :=
        if aspects.length < breadth then
          aspects ++ ((genericAspects query).drop aspects.length).take (breadth - aspects.length)
        else aspects
      padded.take breadth
  | Except.ok none => (genericAspects query).take breadth
  | Except.error _ => (genericAspects query).take breadth

/-- `_research_aspect` (`deep_research_plugin.py` lines 192-240) as a
function of the outcome of its single completion call.  Success yields
`[header, content.strip()]`; a raised exception yields the three-string
error block; a `None` content makes `research_content.strip()` raise an
`AttributeError` inside the `try`, caught by the same handler. -/
def researchAspect (aspect : String) (iteration : Nat) (resp : Resp) : List String :=
  let header := "Research iteration " ++ toString iteration ++ " for " ++ aspect ++ ":"
  match resp with
  | Except.ok (some content) =>
      [header, pyStrip content]
  | Except.ok none =>
      [ header
      , "❌ Error occurred during research: " ++ noneStripMsg
      , "Please check your Azure OpenAI configuration and try again." ]
  | Except.error e =>
      [ header
      , "❌ Error occurred during research: " ++ e
      , "Please check your Azure OpenAI configuration and try again." ]

/-- The accumulating `research_results` Python dict: an association list in
insertion order. -/
abbrev PyDict := List (String × List String)

/-- Python dict assignment `d[k] = v`: replace in place when `k` is present
(keeping its original position), append otherwise. -/
def setKey : PyDict → String → List String → PyDict
  | [], k, v => [(k, v)]
  | (k', v') :: rest, k, v =>
      if k' = k then (k', v) :: rest else (k', v') :: setKey rest k v

/-- Python `d[k].extend(w)`.  In the source this is only ever applied when
`k` is present (it is assigned `[]` just before); on an absent key this model
appends, a branch the orchestrator never reaches. -/
def extendKey : PyDict → String → List String → PyDict
  | [], k, w => [(k, w)]
  | (k', v') :: rest, k, w =>
      if k' = k then (k', v' ++ w) :: rest else (k', v') :: extendKey rest k w

/-- Python `d.get`-style lookup on the association list. -/
def lookupKey (k : String) : PyDict → Option (List String)
  | [] => none
  | (k', v) :: rest => if k' = k then some v else lookupKey k rest

/-- The key list of the dict, in insertion order. -/
def keysOf (d : PyDict) : List String :=
  d.map Prod.fst

/-- The flat list of strings the inner iteration loop appends for one aspect
whose first research call has oracle index `k`: the concatenation of the
blocks returned by `_research_aspect(aspect, iteration+1)` for
`iteration = 0 .. depth-1`. -/
def iterFindings (oracle : Oracle) (aspect : String) (k depth : Nat) : List String :=
  ((List.range depth).map (fun i => researchAspect aspect (i + 1) (oracle (k + i)))).flatten

/-- The inner loop of `_perform_iterative_research` (lines 182-188):
`for iteration in range(depth): research_results[aspect].extend(findings)`. -/
def iterLoop (oracle : Oracle) (aspect : String) (k depth : Nat) (d : PyDict) : PyDict :=
  (List.range depth).foldl
    (fun acc i => extendKey acc aspect (researchAspect aspect (i + 1) (oracle (k + i)))) d

/-- The outer loop of `_perform_iterative_research` (lines 178-188), with
`k` the oracle index of the next research call and `d` the dict built so
far: `research_results[aspect] = []` then the inner loop, for each aspect. -/
def performFrom (oracle : Oracle) (depth : Nat) : List String → Nat → PyDict → PyDict
  | [], _, d => d
  | a :: rest, k, d =>
      performFrom oracle depth rest (k + depth) (iterLoop oracle a k depth (setKey d a []))

/-- `_perform_iterative_research` (`deep_research_plugin.py` lines 173-190);
research calls start at oracle index 1 (index 0 was the outline request). -/
def performIterativeResearch (oracle : Oracle) (outline : List String) (depth : Nat) : PyDict :=
  performFrom oracle depth outline 1 []

/-- One aspect section of the report loop (`deep_research_plugin.py`
lines 269-275): heading, each finding followed by a blank line, rule. -/
def findingsBlock (i : Nat) (aspect : String) (findings : List String) : String :=
  ("### " ++ toString i ++ ". " ++ aspect ++ "\n\n")
    ++ (String.join (findings.map (fun f => f ++ "\n\n")) ++ "---\n\n")

/-- The report loop over `enumerate(research_results.items(), 1)`, carrying
the 1-based counter explicitly. -/
def findingsFrom : Nat → PyDict → String
  | _, [] => ""
  | i, (a, fs) :: rest => findingsBlock i a fs ++ findingsFrom (i + 1) rest

/-- The opening template of `_generate_final_report`
(`deep_research_plugin.py` lines 247-266), up to and including the
`## Detailed Findings` heading. -/
def reportHeader (query date : String) (breadth depth npoints : Nat) : String :=
  ("# Deep Research Report: " ++ query ++ "\n\n**Research Date:** " ++ date
    ++ "  \n**Research Scope:** " ++ toString breadth ++ " aspects explored with "
    ++ toString depth ++ " iterations each  \n")
  ++ (("**Total Research Points:** " ++ toString npoints ++ "\n\n")
  ++ ("## Executive Summary\n\nThis comprehensive research report presents findings from a multi-dimensional analysis of **"
    ++ query ++ "**. The research was conducted across " ++ toString breadth
    ++ " key aspects with " ++ toString depth
    ++ " iterations of investigation for each area, providing a thorough understanding of the topic.\n\n"
    ++ "## Research Methodology\n\n- **Breadth:** " ++ toString breadth
    ++ " key aspects identified and investigated\n- **Depth:** " ++ toString depth
    ++ " research iterations per aspect\n- **Approach:** Systematic multi-level analysis with iterative refinement\n"
    ++ "- **Coverage:** Comprehensive examination of current state, trends, challenges, and future implications\n\n"
    ++ "## Detailed Findings\n\n"))

/-- The closing template of `_generate_final_report` (lines 278-288). -/
def reportFooter (date : String) (nareas depth : Nat) : String :=
  "## Sources and Methodology Notes\n\n- Research conducted using systematic multi-aspect analysis\n- Findings synthesized from "
    ++ toString nareas ++ " research areas\n- Each area investigated through " ++ toString depth
    ++ " iterative research cycles\n- Report generated on " ++ date
    ++ "\n\n---\n\n*This report was generated using the Deep Research Plugin for comprehensive topic analysis.*\n"

/-- `_generate_final_report` (`deep_research_plugin.py` lines 242-290), with
the `datetime.now` date passed explicitly. -/
def generateFinalReport (query : String) (results : PyDict) (breadth depth : Nat)
    (date : String) : String :=
  reportHeader query date breadth depth (results.length * depth)
    ++ (findingsFrom 1 results ++ reportFooter date results.length depth)

/-- `deep_research` (`deep_research_plugin.py` lines 43-77): clamp breadth
to [1,10] and depth to [1,5], generate the outline (oracle call 0), run the
iterative research (oracle calls 1..), render the report.  No modelled
sub-step raises, so the top-level `except` branch is unreachable here. -/
def deepResearch (oracle : Oracle) (query : String) (breadth depth : Nat)
    (date : String) : String :=
  let b := max 1 (min 10 breadth)
  let d := max 1 (min 5 depth)
  let outline := generateResearchOutline query b (oracle 0)
  let results := performIterativeResearch oracle outline d
  generateFinalReport query results b d date

/-- `quick_research` (`deep_research_plugin.py` lines 79-89). -/
def quickResearch (oracle : Oracle) (query : String) (date : String) : String :=
  deepResearch oracle query 2 1 date

/-- The user prompt built by `assess_risks` (`risk_agent.py` lines 76-83);
an empty `risk_categories` is falsy in Python, so the focus line renders the
literal phrase `all risk categories`. -/
def assessPrompt (researchData location riskCategories : String) : String :=
  "Please perform a comprehensive risk assessment for: " ++ location
    ++ "\n\nBased on this research data:\n" ++ researchData
    ++ "\n\nFocus on: "
    ++ (if riskCategories ≠ "" then riskCategories else "all risk categories")
    ++ "\n\nProvide a detailed risk analysis."

/-- `assess_risks` (`risk_agent.py` lines 40-105) as a function of its single
completion outcome: trimmed text on success; the fixed error string on a
raised exception; a `None` content makes `.strip()` raise inside the `try`,
caught by the same handler. -/
def assessRisks (researchData location riskCategories : String) (resp : Resp) : String :=
  match resp with
  | Except.ok (some content) => pyStrip content
  | Except.ok none =>
      "❌ Error during risk assessment: " ++ noneStripMsg
        ++ "\nPlease check your Azure OpenAI configuration."
  | Except.error e =>
      "❌ Error during risk assessment: " ++ e
        ++ "\nPlease check your Azure OpenAI configuration."

/-- A structured tool-call request in a completion response, with its JSON
arguments already parsed into string key/value pairs. -/
structure ToolCall where
  id : String
  name : String
  arguments : List (String × String)
deriving Repr, DecidableEq

/-- A completion response as the chat wrappers see it: optional text content
plus the (possibly empty) tool-call list. -/
structure ChatResponse where
  content : Option String
  toolCalls : List ToolCall
deriving Repr, DecidableEq

/-- A role-tagged message of the conversation the wrapper accumulates. -/
inductive Msg
  | system (content : String)
  | user (content : String)
  | assistant (content : Option String) (toolCalls : List ToolCall)
  | tool (toolCallId : String) (content : String)
deriving Repr, DecidableEq

/-- A completion request as issued by the chat wrapper: the message list and
whether the tool schema is attached (`tools=...` was passed). -/
structure ChatRequest where
  messages : List Msg
  hasTools : Bool
deriving Repr, DecidableEq

/-- What one `chat` turn produces: the returned answer and, when the tool
branch ran, the single follow-up completion request it issued. -/
structure ChatOutcome where
  answer : Option String
  secondRequest : Option ChatRequest
deriving Repr, DecidableEq

/-- The system prompt of `RiskAssessmentAgent` (`risk_agent.py`
lines 157-170). -/
def riskSystemMessage : String :=
  "You are an expert risk assessment analyst with deep expertise in evaluating various types of risks for locations, buildings, and assets. Your role is to provide comprehensive, actionable risk assessments based on research data.\n\nYou have access to risk assessment functions that can help you analyze locations and buildings. When a user asks for risk assessment, you should:\n\n1. Use the assess_risks function to perform comprehensive analysis\n2. Provide detailed risk analysis covering:\n   - Structural & Engineering Risks\n   - Environmental & Natural Disaster Risks  \n   - Safety & Security Risks\n   - Financial & Economic Risks\n   - Regulatory & Legal Risks\n   - Operational & Business Risks\n\nAlways provide professional, thorough, and actionable risk assessments that help users make informed decisions about locations, buildings, and assets."

/-- Python `f"{x}"` on an optional string: `None` renders as `"None"`. -/
def optToPyStr : Option String → String
  | some s => s
  | none => "None"

/-- The dispatch step of `RiskAssessmentAgent.chat` (`risk_agent.py`
lines 210-222): an `assess_risks` call is executed with
`function_args.get("research_data")`, `function_args.get("location", "")`
and `function_args.get("risk_categories", "")`; any other name yields the
fixed unknown-function string without a completion call. -/
def dispatchCall (assessResp : Resp) (tc : ToolCall) : String :=
  if tc.name = "assess_risks" then
    assessRisks (optToPyStr (tc.arguments.lookup "research_data"))
      ((tc.arguments.lookup "location").getD "")
      ((tc.arguments.lookup "risk_categories").getD "")
      assessResp
  else "Unknown function: " ++ tc.name

/-- `RiskAssessmentAgent.chat` (`risk_agent.py` lines 172-246) as a function
of the first completion response `resp1`, a per-tool-call oracle for the
completion each dispatched `assess_risks` performs, and the final completion
response `resp2`.  Python tests `if response_message.tool_calls:`, i.e. a
non-empty list; in that branch the assistant message and one tool message
per call are appended and a single further request without the tool schema
is issued, whose content is returned. -/
def riskChat (message : String) (resp1 : ChatResponse) (assessOracle : Oracle)
    (resp2 : ChatResponse) : ChatOutcome :=
  let messages := [Msg.system riskSystemMessage, Msg.user message]
  if resp1.toolCalls = [] then
    ⟨resp1.content, none⟩
  else
    let messages := messages ++ [Msg.assistant resp1.content resp1.toolCalls]
    let toolMsgs := resp1.toolCalls.enum.map
      (fun p => Msg.tool p.2.id (dispatchCall (assessOracle p.1) p.2))
    ⟨resp2.content, some ⟨messages ++ toolMsgs, false⟩⟩

/-- The dict an orchestration run builds when the outline has pairwise
distinct aspects: one entry per aspect in outline order, whose value is the
flat findings list of its `depth` iterations, with `k` the oracle index of
the first research call for the first listed aspect. -/
def expectedFrom (oracle : Oracle) (depth : Nat) : List String → Nat → PyDict
  | [], _ => []
  | a :: rest, k => (a, iterFindings oracle a k depth) :: expectedFrom oracle depth rest (k + depth)

/-- The acceptance condition stated by the claim: after trimming whitespace
the line is non-empty and starts with a digit, `-`, or `•`. -/
def claimAccepts (line : String) : Bool :=
  match pyStripList line.data with
  | [] => false
  | c :: _ => c.isDigit || c == '-' || c == '•'

/-- The cleanup rule stated by the claim: when the trimmed line contains a
`'.'`, strip the leading prefix up to the first `'.'`; otherwise strip the
leading `-`/`•` run; trim the remainder. -/
def claimRemainder (line : String) : String :=
  let t := pyStripList line.data
  if t.contains '.' then String.mk (pyStripList (afterFirstDot t))
  else String.mk (pyStripList (t.dropWhile (fun ch => ch == '-' || ch == '•')))

/-- A concrete two-aspect, depth-one research result used to exercise the
report template. -/
def exampleResult : PyDict :=
  [ ("Alpha", ["Research iteration 1 for Alpha:", "Alpha findings"])
  , ("Beta", ["Research iteration 1 for Beta:", "Beta findings"]) ]

/-- An oracle whose outline response lists the same aspect twice. -/
def dupOracle : Oracle := fun _ => Except.ok (some "1. A\n2. A")

/-- An oracle whose outline response lists two distinct aspects. -/
def distinctOracle : Oracle := fun _ => Except.ok (some "1. A\n2. B")

theorem strAppend_assoc (a b c : String) : a ++ b ++ c = a ++ (b ++ c) := by
  cases a; cases b; cases c
  exact congrArg String.mk (List.append_assoc _ _ _)

theorem strNil_append (s : String) : "" ++ s = s := by
  cases s
  exact congrArg String.mk (List.nil_append _)

theorem stringMk_eq_empty (l : List Char) : String.mk l = "" ↔ l = [] := by
  simp [String.ext_iff]

theorem optionIfEq (m : List Char) :
    (if m = [] then none else some (String.mk m))
      = (if String.mk m = "" then (none : Option String) else some (String.mk m)) := by
  by_cases hm : m = []
  · simp [hm]
  · rw [if_neg hm, if_neg (fun hh => hm ((stringMk_eq_empty m).mp hh))]

theorem outline_length (query : String) (breadth : Nat) (resp : Resp) (h2 : breadth ≤ 10) :
    (generateResearchOutline query breadth resp).length = breadth := by
  have hg : (genericAspects query).length = 10 := rfl
  cases resp with
  | error e => simp [generateResearchOutline, List.length_take, hg]; omega
  | ok o =>
    cases o with
    | none => simp [generateResearchOutline, List.length_take, hg]; omega
    | some content =>
      simp only [generateResearchOutline]
      split
      · simp [List.length_take, List.length_append, List.length_drop, hg]
        omega
      · next hge =>
        simp [List.length_take]
        omega

theorem lookupKey_setKey_self (d : PyDict) (a : String) (v : List String) :
    lookupKey a (setKey d a v) = some v := by
  induction d with
  | nil => simp [setKey, lookupKey]
  | cons e rest ih =>
    obtain ⟨k', v'⟩ := e
    by_cases h : k' = a
    · simp [setKey, lookupKey, h]
    · simp [setKey, lookupKey, h, ih]

theorem lookupKey_setKey_ne (d : PyDict) (a b : String) (v : List String) (h : b ≠ a) :
    lookupKey b (setKey d a v) = lookupKey b d := by
  induction d with
  | nil => simp [setKey, lookupKey, Ne.symm h]
  | cons e rest ih =>
    obtain ⟨k', v'⟩ := e
    by_cases hk : k' = a
    · subst hk
      simp [setKey, lookupKey, Ne.symm h]
    · simp [setKey, lookupKey, hk, ih]

theorem lookupKey_extendKey_self (d : PyDict) (a : String) (v w : List String)
    (h : lookupKey a d = some v) :
    lookupKey a (extendKey d a w) = some (v ++ w) := by
  induction d with
  | nil => simp [lookupKey] at h
  | cons e rest ih =>
    obtain ⟨k', v'⟩ := e
    by_cases hk : k' = a
    · subst hk
      simp [lookupKey] at h
      simp [extendKey, lookupKey, h]
    · simp [lookupKey, hk] at h
      simp [extendKey, lookupKey, hk, ih h]

theorem lookupKey_extendKey_ne (d : PyDict) (a b : String) (w : List String) (h : b ≠ a) :
    lookupKey b (extendKey d a w) = lookupKey b d := by
  induction d with
  | nil => simp [extendKey, lookupKey, Ne.symm h]
  | cons e rest ih =>
    obtain ⟨k', v'⟩ := e
    by_cases hk : k' = a
    · subst hk
      simp [extendKey, lookupKey, Ne.symm h]
    · simp [extendKey, lookupKey, hk, ih]

theorem setKey_of_lookup_none (d : PyDict) (a : String) (v : List String)
    (h : lookupKey a d = none) :
    setKey d a v = d ++ [(a, v)] := by
  induction d with
  | nil => simp [setKey]
  | cons e rest ih =>
    obtain ⟨k', v'⟩ := e
    by_cases hk : k' = a
    · simp [lookupKey, hk] at h
    · simp [lookupKey, hk] at h
      simp [setKey, hk, ih h]

theorem extendKey_append_of_none (d : PyDict) (a : String) (v w : List String)
    (h : lookupKey a d = none) :
    extendKey (d ++ [(a, v)]) a w = d ++ [(a, v ++ w)] := by
  induction d with
  | nil => simp [extendKey]
  | cons e rest ih =>
    obtain ⟨k', v'⟩ := e
    by_cases hk : k' = a
    · simp [lookupKey, hk] at h
    · simp [lookupKey, hk] at h
      simp [extendKey, hk, ih h]

theorem lookupKey_append_none (d e : PyDict) (b : String)
    (h : lookupKey b d = none) :
    lookupKey b (d ++ e) = lookupKey b e := by
  induction d with
  | nil => simp
  | cons p rest ih =>
    obtain ⟨k', v'⟩ := p
    by_cases hk : k' = b
    · simp [lookupKey, hk] at h
    · simp [lookupKey, hk] at h
      simp [lookupKey, hk, ih h]

theorem iterFindings_zero (oracle : Oracle) (a : String) (k : Nat) :
    iterFindings oracle a k 0 = [] := rfl

theorem iterFindings_succ (oracle : Oracle) (a : String) (k n : Nat) :
    iterFindings oracle a k (n + 1)
      = iterFindings oracle a k n ++ researchAspect a (n + 1) (oracle (k + n)) := by
  simp [iterFindings, List.range_succ]

theorem iterLoop_zero (oracle : Oracle) (a : String) (k : Nat) (d : PyDict) :
    iterLoop oracle a k 0 d = d := rfl

theorem iterLoop_succ (oracle : Oracle) (a : String) (k n : Nat) (d : PyDict) :
    iterLoop oracle a k (n + 1) d
      = extendKey (iterLoop oracle a k n d) a (researchAspect a (n + 1) (oracle (k + n))) := by
  simp [iterLoop, List.range_succ]

theorem lookupKey_iterLoop_self (oracle : Oracle) (a : String) (k : Nat) (d : PyDict)
    (v : List String) (h : lookupKey a d = some v) :
    ∀ n, lookupKey a (iterLoop oracle a k n d) = some (v ++ iterFindings oracle a k n) := by
  intro n
  induction n with
  | zero => simp [iterLoop_zero, iterFindings_zero, h]
  | succ m ih =>
    rw [iterLoop_succ, iterFindings_succ,
      lookupKey_extendKey_self _ _ _ _ ih, List.append_assoc]

theorem lookupKey_iterLoop_ne (oracle : Oracle) (a b : String) (k : Nat) (d : PyDict)
    (h : b ≠ a) : ∀ n, lookupKey b (iterLoop oracle a k n d) = lookupKey b d := by
  intro n
  induction n with
  | zero => simp [iterLoop_zero]
  | succ m ih => rw [iterLoop_succ, lookupKey_extendKey_ne _ _ _ _ h, ih]

theorem iterLoop_append_of_none (oracle : Oracle) (a : String) (k : Nat) (d : PyDict)
    (v : List String) (h : lookupKey a d = none) :
    ∀ n, iterLoop oracle a k n (d ++ [(a, v)])
      = d ++ [(a, v ++ iterFindings oracle a k n)] := by
  intro n
  induction n with
  | zero => simp [iterLoop_zero, iterFindings_zero]
  | succ m ih =>
    rw [iterLoop_succ, ih, extendKey_append_of_none _ _ _ _ h,
      iterFindings_succ, List.append_assoc]

theorem performFrom_nil (oracle : Oracle) (depth k : Nat) (d : PyDict) :
    performFrom oracle depth [] k d = d := rfl

theorem performFrom_cons (oracle : Oracle) (depth k : Nat) (d : PyDict)
    (a : String) (rest : List String) :
    performFrom oracle depth (a :: rest) k d
      = performFrom oracle depth rest (k + depth) (iterLoop oracle a k depth (setKey d a [])) := rfl

theorem performFrom_eq_expected (oracle : Oracle) (depth : Nat) :
    ∀ (outline : List String) (k : Nat) (d : PyDict), outline.Nodup →
      (∀ a ∈ outline, lookupKey a d = none) →
      performFrom oracle depth outline k d = d ++ expectedFrom oracle depth outline k := by
  intro outline
  induction outline with
  | nil => intro k d _ _; simp [performFrom_nil, expectedFrom]
  | cons a rest ih =>
    intro k d hnd hfresh
    have hna : lookupKey a d = none := hfresh a (List.mem_cons_self a rest)
    have hset : setKey d a [] = d ++ [(a, [])] := setKey_of_lookup_none d a [] hna
    rw [performFrom_cons, hset, iterLoop_append_of_none oracle a k d [] hna depth,
      List.nil_append]
    have hnd' : rest.Nodup := (List.nodup_cons.mp hnd).2
    have hnotmem : a ∉ rest := (List.nodup_cons.mp hnd).1
    have hfresh' : ∀ b ∈ rest, lookupKey b (d ++ [(a, iterFindings oracle a k depth)]) = none := by
      intro b hb
      rw [lookupKey_append_none _ _ _ (hfresh b (List.mem_cons_of_mem a hb))]
      have : b ≠ a := fun hh => hnotmem (hh ▸ hb)
      simp [lookupKey, Ne.symm this]
    rw [ih (k + depth) _ hnd' hfresh']
    simp [expectedFrom]

theorem expectedFrom_length (oracle : Oracle) (depth : Nat) :
    ∀ (outline : List String) (k : Nat),
      (expectedFrom oracle depth outline k).length = outline.length := by
  intro outline
  induction outline with
  | nil => intro k; rfl
  | cons a rest ih => intro k; simp [expectedFrom, ih]

theorem expectedFrom_mem (oracle : Oracle) (depth : Nat) :
    ∀ (outline : List String) (k : Nat) (e : String × List String),
      e ∈ expectedFrom oracle depth outline k →
      ∃ b k', e = (b, iterFindings oracle b k' depth) := by
  intro outline
  induction outline with
  | nil => intro k e he; simp [expectedFrom] at he
  | cons a rest ih =>
    intro k e he
    simp only [expectedFrom, List.mem_cons] at he
    cases he with
    | inl h => exact ⟨a, k, h⟩
    | inr h => exact ih (k + depth) e h

theorem researchAspect_length (a : String) (it : Nat) (r : Resp) :
    (researchAspect a it r).length = 2 ∨ (researchAspect a it r).length = 3 := by
  cases r with
  | error e => right; rfl
  | ok o => cases o with
    | none => right; rfl
    | some c => left; rfl

theorem keysOf_cons (k : String) (v : List String) (rest : PyDict) :
    keysOf ((k, v) :: rest) = k :: keysOf rest := rfl

theorem keysOf_setKey_mem (d : PyDict) (a : String) (v : List String)
    (h : a ∈ keysOf d) : keysOf (setKey d a v) = keysOf d := by
  induction d with
  | nil => simp [keysOf] at h
  | cons e rest ih =>
    obtain ⟨k', v'⟩ := e
    by_cases hk : k' = a
    · simp [setKey, hk, keysOf_cons]
    · rw [keysOf_cons, List.mem_cons] at h
      rcases h with h | h
      · exact absurd h.symm hk
      · simp [setKey, hk, keysOf_cons, ih h]

theorem keysOf_setKey_notMem (d : PyDict) (a : String) (v : List String)
    (h : a ∉ keysOf d) : keysOf (setKey d a v) = keysOf d ++ [a] := by
  induction d with
  | nil => simp [setKey, keysOf]
  | cons e rest ih =>
    obtain ⟨k', v'⟩ := e
    rw [keysOf_cons, List.mem_cons] at h
    push_neg at h
    simp [setKey, Ne.symm h.1, keysOf_cons, ih h.2]

theorem keysOf_extendKey_mem (d : PyDict) (a : String) (w : List String)
    (h : a ∈ keysOf d) : keysOf (extendKey d a w) = keysOf d := by
  induction d with
  | nil => simp [keysOf] at h
  | cons e rest ih =>
    obtain ⟨k', v'⟩ := e
    by_cases hk : k' = a
    · simp [extendKey, hk, keysOf_cons]
    · rw [keysOf_cons, List.mem_cons] at h
      rcases h with h | h
      · exact absurd h.symm hk
      · simp [extendKey, hk, keysOf_cons, ih h]

theorem mem_keysOf_setKey (d : PyDict) (a : String) (v : List String) :
    a ∈ keysOf (setKey d a v) := by
  by_cases h : a ∈ keysOf d
  · rw [keysOf_setKey_mem d a v h]; exact h
  · rw [keysOf_setKey_notMem d a v h]; simp

theorem keysOf_iterLoop (oracle : Oracle) (a : String) (k : Nat) (d : PyDict)
    (h : a ∈ keysOf d) : ∀ n, keysOf (iterLoop oracle a k n d) = keysOf d := by
  intro n
  induction n with
  | zero => simp [iterLoop_zero]
  | succ m ih =>
    rw [iterLoop_succ, keysOf_extendKey_mem _ _ _ (by rw [ih]; exact h), ih]

theorem keysOf_setKey_or (d : PyDict) (a b : String) (v : List String) :
    b ∈ keysOf (setKey d a v) ↔ b ∈ keysOf d ∨ b = a := by
  by_cases h : a ∈ keysOf d
  · rw [keysOf_setKey_mem d a v h]
    constructor
    · exact Or.inl
    · rintro (hb | rfl)
      · exact hb
      · exact h
  · rw [keysOf_setKey_notMem d a v h]
    simp

theorem keysOf_performFrom_nodup (oracle : Oracle) (depth : Nat) :
    ∀ (outline : List String) (k : Nat) (d : PyDict),
      (keysOf d).Nodup → (keysOf (performFrom oracle depth outline k d)).Nodup := by
  intro outline
  induction outline with
  | nil => intro k d h; exact h
  | cons a rest ih =>
    intro k d h
    rw [performFrom_cons]
    apply ih
    rw [keysOf_iterLoop oracle a k _ (mem_keysOf_setKey d a []) depth]
    by_cases hm : a ∈ keysOf d
    · rw [keysOf_setKey_mem d a [] hm]; exact h
    · rw [keysOf_setKey_notMem d a [] hm]
      simp [List.nodup_append, h, hm]

theorem mem_keysOf_performFrom (oracle : Oracle) (depth : Nat) :
    ∀ (outline : List String) (k : Nat) (d : PyDict) (b : String),
      b ∈ keysOf (performFrom oracle depth outline k d) ↔ b ∈ keysOf d ∨ b ∈ outline := by
  intro outline
  induction outline with
  | nil => intro k d b; simp [performFrom_nil]
  | cons a rest ih =>
    intro k d b
    rw [performFrom_cons, ih,
      keysOf_iterLoop oracle a k _ (mem_keysOf_setKey d a []) depth,
      keysOf_setKey_or]
    simp only [List.mem_cons]
    tauto

theorem performFrom_append (oracle : Oracle) (depth : Nat) :
    ∀ (xs ys : List String) (k : Nat) (d : PyDict),
      performFrom oracle depth (xs ++ ys) k d
        = performFrom oracle depth ys (k + depth * xs.length) (performFrom oracle depth xs k d) := by
  intro xs
  induction xs with
  | nil => intro ys k d; simp [performFrom_nil]
  | cons a rest ih =>
    intro ys k d
    rw [List.cons_append, performFrom_cons, ih, performFrom_cons]
    congr 1
    simp [Nat.mul_succ, Nat.mul_add]
    omega

theorem performFrom_lookup_notMem (oracle : Oracle) (depth : Nat) :
    ∀ (outline : List String) (k : Nat) (d : PyDict) (b : String), b ∉ outline →
      lookupKey b (performFrom oracle depth outline k d) = lookupKey b d := by
  intro outline
  induction outline with
  | nil => intro k d b _; rfl
  | cons a rest ih =>
    intro k d b hb
    simp only [List.mem_cons] at hb
    push_neg at hb
    rw [performFrom_cons, ih _ _ _ hb.2,
      lookupKey_iterLoop_ne oracle a b k _ hb.1 depth,
      lookupKey_setKey_ne d a b [] hb.1]

theorem findingsFrom_cons (i : Nat) (a : String) (fs : List String) (rest : PyDict) :
    findingsFrom i ((a, fs) :: rest) = findingsBlock i a fs ++ findingsFrom (i + 1) rest := rfl

theorem findingsFrom_decomp :
    ∀ (results : PyDict) (i0 j : Nat), j < results.length →
      ∃ pre post, findingsFrom i0 results
        = pre ++ (findingsBlock (i0 + j) (results.getD j ("", [])).1 (results.getD j ("", [])).2 ++ post) := by
  intro results
  induction results with
  | nil => intro i0 j hj; simp at hj
  | cons e rest ih =>
    intro i0 j hj
    obtain ⟨a, fs⟩ := e
    cases j with
    | zero =>
      refine ⟨"", findingsFrom (i0 + 1) rest, ?_⟩
      rw [strNil_append, findingsFrom_cons]
      simp
    | succ m =>
      have hm : m < rest.length := by simpa using hj
      obtain ⟨pre', post', hrec⟩ := ih (i0 + 1) m hm
      refine ⟨findingsBlock i0 a fs ++ pre', post', ?_⟩
      rw [findingsFrom_cons, hrec, strAppend_assoc]
      have : i0 + 1 + m = i0 + (m + 1) := by omega
      rw [this]
      simp

theorem exists_mid (A B C R : String) : ∃ x y, (A ++ (B ++ C)) ++ R = x ++ (B ++ y) :=
  ⟨A, C ++ R, by rw [strAppend_assoc A (B ++ C) R, strAppend_assoc B C R]⟩

/-- C1 (amended): for every breadth in [1,10] and depth in [1,5] and every
response sequence whose generated outline has pairwise-distinct aspect
strings, the ResearchResult has exactly breadth aspect entries, as many
entries as the outline, and every entry's findings are the concatenation of
exactly depth finding blocks, each of 2 (success) or 3 (failure placeholder)
strings — failed iterations contribute placeholder blocks, never absences.
The original claim, quantified over all response sequences, fails when the
outline repeats an aspect string (see the counterexample): the dict keyed by
aspect collapses duplicates. -/
theorem c1_amended_result_shape (oracle : Oracle) (query : String) (breadth depth : Nat)
    (hb1 : 1 ≤ breadth) (hb2 : breadth ≤ 10) (hd1 : 1 ≤ depth) (hd2 : depth ≤ 5)
    (hnd : (generateResearchOutline query breadth (oracle 0)).Nodup) :
    (performIterativeResearch oracle (generateResearchOutline query breadth (oracle 0)) depth).length = breadth
    ∧ (performIterativeResearch oracle (generateResearchOutline query breadth (oracle 0)) depth).length
        = (generateResearchOutline query breadth (oracle 0)).length
    ∧ ∀ e ∈ performIterativeResearch oracle (generateResearchOutline query breadth (oracle 0)) depth,
        ∃ blocks : List (List String), blocks.length = depth
          ∧ e.2 = blocks.flatten
          ∧ ∀ b ∈ blocks, b.length = 2 ∨ b.length = 3 := by
  have hfresh : ∀ a ∈ generateResearchOutline query breadth (oracle 0),
      lookupKey a ([] : PyDict) = none := fun a _ => rfl
  have hperf : performIterativeResearch oracle (generateResearchOutline query breadth (oracle 0)) depth
      = expectedFrom oracle depth (generateResearchOutline query breadth (oracle 0)) 1 := by
    rw [performIterativeResearch, performFrom_eq_expected oracle depth _ 1 [] hnd hfresh,
      List.nil_append]
  have hlen : (performIterativeResearch oracle (generateResearchOutline query breadth (oracle 0)) depth).length
      = (generateResearchOutline query breadth (oracle 0)).length := by
    rw [hperf, expectedFrom_length]
  refine ⟨?_, hlen, ?_⟩
  · rw [hlen, outline_length query breadth (oracle 0) hb2]
  · intro e he
    rw [hperf] at he
    obtain ⟨b, k', rfl⟩ := expectedFrom_mem oracle depth _ 1 e he
    refine ⟨(List.range depth).map (fun i => researchAspect b (i + 1) (oracle (k' + i))), ?_, rfl, ?_⟩
    · simp
    · intro blk hblk
      simp only [List.mem_map] at hblk
      obtain ⟨i, _, rfl⟩ := hblk
      exact researchAspect_length b (i + 1) (oracle (k' + i))

/-- C1 counterexample: with breadth 2 and depth 1 in range, an outline
response listing the same aspect twice yields a two-element outline but a
one-entry ResearchResult, so the result has neither breadth entries nor as
many entries as the outline, refuting the claim as stated. -/
theorem c1_counterexample :
    ((1 : Nat) ≤ 2 ∧ (2 : Nat) ≤ 10 ∧ (1 : Nat) ≤ 1 ∧ (1 : Nat) ≤ 5)
    ∧ (generateResearchOutline "q" 2 (dupOracle 0)).length = 2
    ∧ ¬ ((performIterativeResearch dupOracle (generateResearchOutline "q" 2 (dupOracle 0)) 1).length = 2)
    ∧ ¬ ((performIterativeResearch dupOracle (generateResearchOutline "q" 2 (dupOracle 0)) 1).length
          = (generateResearchOutline "q" 2 (dupOracle 0)).length) := by
  decide

/-- C1 witness: the amended theorem applied at breadth 2, depth 1 and an
oracle whose outline response lists two distinct aspects. -/
theorem c1_amended_result_shape_witness :
    ((1 : Nat) ≤ 2 ∧ (2 : Nat) ≤ 10 ∧ (1 : Nat) ≤ 1 ∧ (1 : Nat) ≤ 5
      ∧ (generateResearchOutline "q" 2 (distinctOracle 0)).Nodup)
    ∧ ((performIterativeResearch distinctOracle (generateResearchOutline "q" 2 (distinctOracle 0)) 1).length = 2
        ∧ (performIterativeResearch distinctOracle (generateResearchOutline "q" 2 (distinctOracle 0)) 1).length
            = (generateResearchOutline "q" 2 (distinctOracle 0)).length
        ∧ ∀ e ∈ performIterativeResearch distinctOracle (generateResearchOutline "q" 2 (distinctOracle 0)) 1,
            ∃ blocks : List (List String), blocks.length = 1
              ∧ e.2 = blocks.flatten
              ∧ ∀ b ∈ blocks, b.length = 2 ∨ b.length = 3) :=
  ⟨⟨by decide, by decide, by decide, by decide, by decide⟩,
    c1_amended_result_shape distinctOracle "q" 2 1 (by decide) (by decide) (by decide) (by decide) (by decide)⟩

/-- C2: for every query and breadth in [1,10], the outline generator returns
exactly breadth strings; on a raised completion call it returns exactly the
ten-element generic fallback truncated to breadth; when parsing yields fewer
than breadth items the output is the parsed items padded from the fallback
list (skipping as many as were parsed); and the output never exceeds breadth
items for any response. -/
theorem c2_outline_contract (query : String) (breadth : Nat) (resp : Resp)
    (h1 : 1 ≤ breadth) (h2 : breadth ≤ 10) :
    (generateResearchOutline query breadth resp).length = breadth
    ∧ (∀ e, generateResearchOutline query breadth (Except.error e)
        = (genericAspects query).take breadth)
    ∧ (∀ content, (parseAspects content).length < breadth →
        generateResearchOutline query breadth (Except.ok (some content))
          = parseAspects content
            ++ ((genericAspects query).drop (parseAspects content).length).take
                 (breadth - (parseAspects content).length))
    ∧ (∀ r, (generateResearchOutline query breadth r).length ≤ breadth)
    ∧ (genericAspects query).length = 10 := by
  refine ⟨outline_length query breadth resp h2, fun e => rfl, ?_, ?_, rfl⟩
  · intro content hlt
    have hg : (genericAspects query).length = 10 := rfl
    simp only [generateResearchOutline, if_pos hlt]
    apply List.take_of_length_le
    simp [List.length_take, List.length_append, List.length_drop, hg]
    omega
  · intro r
    cases r with
    | error e => simp [generateResearchOutline, List.length_take]
    | ok o =>
      cases o with
      | none => simp [generateResearchOutline, List.length_take]
      | some content => simp only [generateResearchOutline]; split <;> simp [List.length_take]

/-- C2 witness: the contract applied at breadth 3 and a failing completion
call. -/
theorem c2_outline_contract_witness :
    ((1 : Nat) ≤ 3 ∧ (3 : Nat) ≤ 10)
    ∧ ((generateResearchOutline "q" 3 (Except.error "boom")).length = 3
        ∧ (∀ e, generateResearchOutline "q" 3 (Except.error e)
            = (genericAspects "q").take 3)
        ∧ (∀ content, (parseAspects content).length < 3 →
            generateResearchOutline "q" 3 (Except.ok (some content))
              = parseAspects content
                ++ ((genericAspects "q").drop (parseAspects content).length).take
                     (3 - (parseAspects content).length))
        ∧ (∀ r, (generateResearchOutline "q" 3 r).length ≤ 3)
        ∧ (genericAspects "q").length = 10) :=
  ⟨⟨by decide, by decide⟩, c2_outline_contract "q" 3 (Except.error "boom") (by decide) (by decide)⟩

/-- C3: a line is accepted as an outline item exactly when, after trimming
whitespace, it is non-empty and starts with a digit, a dash or a bullet; the
kept item is the trimmed text after the first dot when the trimmed line
contains one, otherwise the trimmed remainder after the leading dash/bullet
run, with empty remainders rejected; and the model text "1. Foo\n2. Bar\n"
parses to ["Foo", "Bar"]. -/
theorem c3_outline_line_rule :
    (∀ line : String,
      parseLineAspect line
        = if claimAccepts line then
            (if claimRemainder line = "" then none else some (claimRemainder line))
          else none)
    ∧ parseAspects "1. Foo\n2. Bar\n" = ["Foo", "Bar"] := by
  constructor
  · intro line
    unfold parseLineAspect claimAccepts claimRemainder
    cases h : pyStripList line.data with
    | nil => simp
    | cons c cs =>
      by_cases hc : (c.isDigit || c == '-' || c == '•') = true
      · simp only [hc, if_true]
        by_cases hdot : ((c :: cs).contains '.') = true
        · simp only [hdot, if_true]
          exact optionIfEq _
        · simp only [Bool.not_eq_true] at hdot
          simp only [hdot, Bool.false_eq_true, if_false]
          exact optionIfEq _
      · simp only [Bool.not_eq_true] at hc
        simp only [hc, Bool.false_eq_true, if_false]
  · decide

/-- C4: for every aspect and iteration, a successful research call returns
exactly the two strings [header, trimmed model text], and a raised
completion call returns exactly the three strings [header, error marker with
the exception message, remediation hint]; the function is total, so it never
raises. -/
theorem c4_research_aspect_contract (aspect : String) (iteration : Nat) :
    (∀ content, researchAspect aspect iteration (Except.ok (some content))
        = ["Research iteration " ++ toString iteration ++ " for " ++ aspect ++ ":", pyStrip content])
    ∧ (∀ e, researchAspect aspect iteration (Except.error e)
        = [ "Research iteration " ++ toString iteration ++ " for " ++ aspect ++ ":"
          , "❌ Error occurred during research: " ++ e
          , "Please check your Azure OpenAI configuration and try again." ]) :=
  ⟨fun _ => rfl, fun _ => rfl⟩

set_option maxRecDepth 400000 in
/-- C5: for every query, result, breadth, depth and date, the metadata block
states the total research points as the entry count times depth; for every
index below the result length, the detailed-findings section decomposes
around that aspect's level-3 heading block numbered from 1 in insertion
order; and the concrete breadth-2 depth-1 two-entry example renders
"Total Research Points:** 2" and exactly two level-3 headings, numbered 1
and 2 in outline order. -/
theorem c5_report_structure (query : String) (results : PyDict) (breadth depth : Nat) (date : String) :
    (∃ x y, generateFinalReport query results breadth depth date
        = x ++ (("**Total Research Points:** " ++ toString (results.length * depth) ++ "\n\n") ++ y))
    ∧ (∀ j, j < results.length →
        ∃ pre post, findingsFrom 1 results
          = pre ++ (findingsBlock (1 + j) (results.getD j ("", [])).1 (results.getD j ("", [])).2 ++ post))
    ∧ containsStr (generateFinalReport "X" exampleResult 2 1 "2026-01-01") "**Total Research Points:** 2" = true
    ∧ countSub ("### ".data) (generateFinalReport "X" exampleResult 2 1 "2026-01-01").data = 2
    ∧ findingsFrom 1 exampleResult
      = "### 1. Alpha\n\nResearch iteration 1 for Alpha:\n\nAlpha findings\n\n---\n\n### 2. Beta\n\nResearch iteration 1 for Beta:\n\nBeta findings\n\n---\n\n" := by
  refine ⟨?_, fun j hj => findingsFrom_decomp results 1 j hj, by decide, by decide, by decide⟩
  simp only [generateFinalReport, reportHeader]
  exact exists_mid _ _ _ _

/-- C5 witness: the report-structure theorem applied at the concrete
two-entry result, heading index 0. -/
theorem c5_report_structure_witness :
    (0 < exampleResult.length)
    ∧ (∃ pre post, findingsFrom 1 exampleResult
        = pre ++ (findingsBlock (1 + 0) (exampleResult.getD 0 ("", [])).1 (exampleResult.getD 0 ("", [])).2 ++ post)) :=
  ⟨by decide, (c5_report_structure "X" exampleResult 2 1 "2026-01-01").2.1 0 (by decide)⟩

/-- C6: for every oracle of model responses, query and date, quick research
is the same string as deep research at breadth 2 and depth 1. -/
theorem c6_quick_research_equiv : ∀ (oracle : Oracle) (query date : String),
    quickResearch oracle query date = deepResearch oracle query 2 1 date :=
  fun _ _ _ => rfl

/-- C7: the risk assessment returns the trimmed model text on success and
the fixed error string embedding the exception message on a raised call
(total, so it never raises), and with an empty risk-categories argument the
user prompt renders the focus as the literal phrase "all risk categories". -/
theorem c7_assess_risks_contract (researchData location riskCategories : String) :
    (∀ content, assessRisks researchData location riskCategories (Except.ok (some content)) = pyStrip content)
    ∧ (∀ e, assessRisks researchData location riskCategories (Except.error e)
        = "❌ Error during risk assessment: " ++ e ++ "\nPlease check your Azure OpenAI configuration.")
    ∧ assessPrompt researchData location ""
        = "Please perform a comprehensive risk assessment for: " ++ location
            ++ "\n\nBased on this research data:\n" ++ researchData
            ++ "\n\nFocus on: " ++ "all risk categories" ++ "\n\nProvide a detailed risk analysis." := by
  refine ⟨fun _ => rfl, fun _ => rfl, ?_⟩
  simp [assessPrompt]

/-- C8: when the first completion response carries exactly one tool call to
assess_risks whose parsed arguments hold only research_data, the wrapper
runs the risk flow with empty location and risk categories, appends the
result as a tool-role message tagged with the call id, issues exactly one
follow-up completion request without the tool schema, and returns that
response's content. -/
theorem c8_tool_dispatch (message cid dval : String) (content1 : Option String)
    (assessOracle : Oracle) (resp2 : ChatResponse) :
    riskChat message ⟨content1, [⟨cid, "assess_risks", [("research_data", dval)]⟩]⟩ assessOracle resp2
      = ⟨ resp2.content
        , some ⟨ [ Msg.system riskSystemMessage, Msg.user message
                 , Msg.assistant content1 [⟨cid, "assess_risks", [("research_data", dval)]⟩]
                 , Msg.tool cid (assessRisks dval "" "" (assessOracle 0)) ]
               , false ⟩ ⟩ := by
  rfl

/-- C9: when the outline carries the same aspect string at two positions
(the second shown as its last occurrence), the result dict has strictly
fewer entries than the outline, holds a single entry for that string, and
that entry's value is exactly the findings of the last occurrence's depth
iterations — each earlier occurrence was reset to the empty list. -/
theorem c9_duplicate_aspect_collapse (oracle : Oracle) (depth : Nat)
    (l₁ l₂ l₃ : List String) (a : String) (h : a ∉ l₃) :
    (performIterativeResearch oracle (l₁ ++ a :: l₂ ++ a :: l₃) depth).length
        < (l₁ ++ a :: l₂ ++ a :: l₃).length
    ∧ lookupKey a (performIterativeResearch oracle (l₁ ++ a :: l₂ ++ a :: l₃) depth)
        = some (iterFindings oracle a (1 + depth * (l₁ ++ a :: l₂).length) depth)
    ∧ (keysOf (performIterativeResearch oracle (l₁ ++ a :: l₂ ++ a :: l₃) depth)).count a = 1 := by
  have hsplit : l₁ ++ a :: l₂ ++ a :: l₃ = (l₁ ++ a :: l₂) ++ (a :: l₃) := by simp
  have hlk : lookupKey a (performIterativeResearch oracle (l₁ ++ a :: l₂ ++ a :: l₃) depth)
      = some (iterFindings oracle a (1 + depth * (l₁ ++ a :: l₂).length) depth) := by
    rw [performIterativeResearch, hsplit, performFrom_append, performFrom_cons,
      performFrom_lookup_notMem oracle depth l₃ _ _ a h,
      lookupKey_iterLoop_self oracle a _ _ [] (lookupKey_setKey_self _ a []) depth,
      List.nil_append]
  have hnodupKeys : (keysOf (performIterativeResearch oracle (l₁ ++ a :: l₂ ++ a :: l₃) depth)).Nodup := by
    rw [performIterativeResearch]
    exact keysOf_performFrom_nodup oracle depth _ 1 [] (by simp [keysOf])
  have hmem : ∀ b, b ∈ keysOf (performIterativeResearch oracle (l₁ ++ a :: l₂ ++ a :: l₃) depth)
      ↔ b ∈ (l₁ ++ a :: l₂ ++ a :: l₃) := by
    intro b
    rw [performIterativeResearch, mem_keysOf_performFrom]
    simp [keysOf]
  have hkeylen : (performIterativeResearch oracle (l₁ ++ a :: l₂ ++ a :: l₃) depth).length
      = (keysOf (performIterativeResearch oracle (l₁ ++ a :: l₂ ++ a :: l₃) depth)).length := by
    simp [keysOf]
  have hperm : List.Perm (keysOf (performIterativeResearch oracle (l₁ ++ a :: l₂ ++ a :: l₃) depth))
      ((l₁ ++ a :: l₂ ++ a :: l₃).dedup) :=
    (List.perm_ext_iff_of_nodup hnodupKeys (List.nodup_dedup _)).mpr
      (fun b => by rw [List.mem_dedup]; exact hmem b)
  have hnotnodup : ¬ (l₁ ++ a :: l₂ ++ a :: l₃).Nodup := by
    intro hcon
    have hcnt := List.nodup_iff_count_le_one.mp hcon a
    simp [List.count_append, List.count_cons] at hcnt
    omega
  have hdedlt : (l₁ ++ a :: l₂ ++ a :: l₃).dedup.length < (l₁ ++ a :: l₂ ++ a :: l₃).length := by
    have hsub := List.dedup_sublist (l₁ ++ a :: l₂ ++ a :: l₃)
    apply Nat.lt_of_le_of_ne hsub.length_le
    intro heq
    exact hnotnodup (List.dedup_eq_self.mp (hsub.eq_of_length heq))
  refine ⟨?_, hlk, ?_⟩
  · rw [hkeylen, hperm.length_eq]
    exact hdedlt
  · exact List.count_eq_one_of_mem hnodupKeys ((hmem a).mpr (by simp))

/-- C9 witness: the collapse theorem applied at the two-element outline
["A", "A"] with depth 1. -/
theorem c9_duplicate_aspect_collapse_witness :
    ("A" ∉ ([] : List String))
    ∧ ((performIterativeResearch (fun _ => Except.ok (some "x")) ([] ++ "A" :: [] ++ "A" :: []) 1).length
          < (([] : List String) ++ "A" :: [] ++ "A" :: []).length
        ∧ lookupKey "A" (performIterativeResearch (fun _ => Except.ok (some "x")) ([] ++ "A" :: [] ++ "A" :: []) 1)
            = some (iterFindings (fun _ => Except.ok (some "x")) "A" (1 + 1 * (([] : List String) ++ "A" :: []).length) 1)
        ∧ (keysOf (performIterativeResearch (fun _ => Except.ok (some "x")) ([] ++ "A" :: [] ++ "A" :: []) 1)).count "A" = 1) :=
  ⟨by decide, c9_duplicate_aspect_collapse (fun _ => Except.ok (some "x")) 1 [] [] [] "A" (by decide)⟩

/-- C10: a completion response with null content makes the aspect researcher
return its three-string error block (embedding the attribute-error message
of trimming None) and makes the risk assessment return its fixed error
string — the null is caught by the same handler as call failures, so
neither operation raises. -/
theorem c10_null_content_handling (aspect : String) (iteration : Nat)
    (researchData location riskCategories : String) :
    researchAspect aspect iteration (Except.ok none)
      = [ "Research iteration " ++ toString iteration ++ " for " ++ aspect ++ ":"
        , "❌ Error occurred during research: " ++ noneStripMsg
        , "Please check your Azure OpenAI configuration and try again." ]
    ∧ assessRisks researchData location riskCategories (Except.ok none)
      = "❌ Error during risk assessment: " ++ noneStripMsg
          ++ "\nPlease check your Azure OpenAI configuration." :=
  ⟨rfl, rfl⟩
